import Mathlib

/-!
Shallow embedding of `src/main.py` (telegram-dexswap): a polling bot that
filters newly listed Solana tokens by liquidity, computes a heuristic risk
score, renders a performance chart and notifies a Telegram chat.

Modelling conventions:
* Python/JSON values are `JValue`; Python floats are exact rationals `ℚ`
  (binary rounding of IEEE doubles is not modelled; every numeric claim
  here involves exactly representable values).
* A raised exception is `none` / `Except.error`; `try/except` blocks are
  the corresponding `match`es.
* Network calls (`requests.get` / `requests.post`) and image rendering
  (`fig.write_image`) are oracle parameters supplied by the caller.
-/

/-- JSON-like Python values as handled by the script: `None`, booleans,
numbers (ints and floats collapsed to `ℚ`), strings, lists and dicts
(dicts as ordered association lists; the script never builds dicts with
duplicate keys). -/
inductive JValue where
  | null
  | bool (b : Bool)
  | num (q : ℚ)
  | str (s : String)
  | arr (items : List JValue)
  | obj (fields : List (String × JValue))

mutual

/-- Python `==` between values (dict comparison is order-sensitive in this
model; the script only ever compares strings with `==` and `in`). -/
def jeq : JValue → JValue → Bool
  | .null, .null => true
  | .bool a, .bool b => a == b
  | .num a, .num b => a == b
  | .str a, .str b => a == b
  | .arr xs, .arr ys => jeqItems xs ys
  | .obj xs, .obj ys => jeqFields xs ys
  | _, _ => false

/-- Elementwise `jeq` on lists. -/
def jeqItems : List JValue → List JValue → Bool
  | [], [] => true
  | x :: xs, y :: ys => jeq x y && jeqItems xs ys
  | _, _ => false

/-- Elementwise `jeq` on dict field lists. -/
def jeqFields : List (String × JValue) → List (String × JValue) → Bool
  | [], [] => true
  | (k1, v1) :: xs, (k2, v2) :: ys => k1 == k2 && jeq v1 v2 && jeqFields xs ys
  | _, _ => false

end

/-- First binding of `key` in a dict's field list (Python dict lookup). -/
def lookupField : List (String × JValue) → String → Option JValue
  | [], _ => none
  | kv :: rest, key => if kv.1 = key then some kv.2 else lookupField rest key

/-- Python truthiness: `bool(x)` for the values the script tests with
`if not x`. -/
def pyTruthy : JValue → Bool
  | .null => false
  | .bool b => b
  | .num q => q != 0
  | .str s => s != ""
  | .arr items => !items.isEmpty
  | .obj fields => !fields.isEmpty

/-- `isinstance(x, dict)`. -/
def JValue.isObj : JValue → Bool
  | .obj _ => true
  | _ => false

/-- Python `x.get(key, default)`: `.error` models the `AttributeError`
raised when the receiver is not a dict. -/
def pyGet (v : JValue) (key : String) (dflt : JValue) : Except Unit JValue :=
  match v with
  | .obj fields => .ok ((lookupField fields key).getD dflt)
  | _ => .error ()

/-- Python `str.lower()` (ASCII case folding, which covers the script's
base58 token addresses). -/
def strLower (s : String) : String := String.mk (s.data.map Char.toLower)

/-- Python `str.endswith(t)`. -/
def strEndsWith (s t : String) : Bool :=
  decide (t.data.length ≤ s.data.length) &&
    (s.data.drop (s.data.length - t.data.length) == t.data)

/-- Python `str.strip()` (whitespace removal done by `float(str)`). -/
def strStrip (s : String) : String :=
  String.mk (((s.data.dropWhile Char.isWhitespace).reverse.dropWhile Char.isWhitespace).reverse)

/-- Value of a string of decimal digits. -/
def digitsVal (cs : List Char) : ℕ :=
  cs.foldl (fun n c => n * 10 + (c.toNat - 48)) 0

/-- Exponent part of a Python float literal (after the `e`/`E`). -/
def parseExpPart (mant : ℚ) (cs : List Char) : Option ℚ :=
  let p : ℤ × List Char :=
    match cs with
    | '-' :: rest => (-1, rest)
    | '+' :: rest => (1, rest)
    | _ => (1, cs)
  if p.2.isEmpty ∨ ¬ p.2.all (·.isDigit) then none
  else some (mant * (10 : ℚ) ^ (p.1 * (digitsVal p.2 : ℤ)))

/-- Python `float(string)`: optional surrounding whitespace, optional sign,
decimal digits with optional fraction and exponent.  (`inf`/`nan` literals
and digit-group underscores are not modelled; no claim involves them.) -/
def parseDecimal (s : String) : Option ℚ :=
  let cs := (strStrip s).data
  let p : ℚ × List Char :=
    match cs with
    | '-' :: rest => (-1, rest)
    | '+' :: rest => (1, rest)
    | _ => (1, cs)
  let sign := p.1
  let ip := p.2.takeWhile (·.isDigit)
  let rest1 := p.2.dropWhile (·.isDigit)
  match rest1 with
  | [] => if ip.isEmpty then none else some (sign * (digitsVal ip : ℚ))
  | '.' :: rest2 =>
    let fp := rest2.takeWhile (·.isDigit)
    let rest3 := rest2.dropWhile (·.isDigit)
    if ip.isEmpty ∧ fp.isEmpty then none
    else
      let mant : ℚ := (digitsVal ip : ℚ) + (digitsVal fp : ℚ) / (10 : ℚ) ^ fp.length
      match rest3 with
      | [] => some (sign * mant)
      | 'e' :: rest4 => (parseExpPart mant rest4).map (sign * ·)
      | 'E' :: rest4 => (parseExpPart mant rest4).map (sign * ·)
      | _ => none
  | 'e' :: rest2 =>
    if ip.isEmpty then none else (parseExpPart (digitsVal ip : ℚ) rest2).map (sign * ·)
  | 'E' :: rest2 =>
    if ip.isEmpty then none else (parseExpPart (digitsVal ip : ℚ) rest2).map (sign * ·)
  | _ => none

/-- Python `float(x)` coercion; `none` models a raised
`TypeError`/`ValueError`. -/
def pyFloat : JValue → Option ℚ
  | .num q => some q
  | .bool b => some (if b then 1 else 0)
  | .str s => parseDecimal s
  | _ => none

/-- The expression `float(pair.get(outer, {}).get(inner, 0))` used by
`calculate_investment_risk` (lines 161-163) and by the liquidity-threshold
check of `process_new_tokens` (line 406); `none` models a raised
`AttributeError`/`TypeError`/`ValueError`. -/
def extractNum (pair : JValue) (outer inner : String) : Option ℚ :=
  match pyGet pair outer (.obj []) with
  | .error _ => none
  | .ok d =>
    match pyGet d inner (.num 0) with
    | .error _ => none
    | .ok v => pyFloat v

/-- Liquidity of one candidate pair inside `get_main_pair`'s scan loop
(lines 122-139): non-dict entries and entries whose `liquidity.usd` fails
`float` coercion yield `none` (the loop's `continue`); a non-dict
`liquidity` value is replaced by `{}` first. -/
def parsedLiq : JValue → Option ℚ
  | .obj fields =>
    let ld := (lookupField fields "liquidity").getD (.obj [])
    let usd :=
      match ld with
      | .obj lf => (lookupField lf "usd").getD (.num 0)
      | _ => .num 0
    pyFloat usd
  | _ => none

/-- The `for pair in pairs` selection loop of `get_main_pair`
(lines 119-139): running best pair and running maximum, updated only on a
strictly greater parsed liquidity. -/
def scanPairs : List JValue → Option JValue → ℚ → Option JValue × ℚ
  | [], best, maxLiq => (best, maxLiq)
  | pair :: rest, best, maxLiq =>
    match parsedLiq pair with
    | none => scanPairs rest best maxLiq
    | some q => if maxLiq < q then scanPairs rest (some pair) q else scanPairs rest best maxLiq

/-- The fallback `pairs[0] if isinstance(pairs[0], dict) else None`
(line 143). -/
def firstPairFallback : List JValue → Option JValue
  | [] => none
  | p :: _ => match p with | .obj _ => some p | _ => none

/-- `get_main_pair` (lines 99-153). -/
def get_main_pair (token_data : JValue) : Option JValue :=
  match token_data with
  | .obj fields =>
    let pairs : List JValue :=
      match lookupField fields "pairs" with
      | some (.arr xs) => xs
      | some _ => [token_data]
      | none => []
    if pairs.isEmpty then none
    else
      let s := scanPairs pairs none 0
      let main_pair : Option JValue :=
        match s.1 with
        | some p => if pyTruthy p then some p else firstPairFallback pairs
        | none => firstPairFallback pairs
      match main_pair with
      | some p => if pyTruthy p then some p else none
      | none => none
  | _ => none

/-- The dict returned by `calculate_investment_risk`. -/
structure RiskData where
  liquidity : ℚ
  volume_24h : ℚ
  price_change_24h : ℚ
  risk_score : ℚ
  risk_percentage : ℚ
  deriving DecidableEq

/-- `calculate_investment_risk` (lines 155-178); `none` models both the
non-dict early return and the `except Exception` handler. -/
def calculate_investment_risk (pair : JValue) : Option RiskData :=
  match pair with
  | .obj _ =>
    match extractNum pair "liquidity" "usd" with
    | none => none
    | some liquidity =>
      match extractNum pair "volume" "h24" with
      | none => none
      | some volume_24h =>
        match extractNum pair "priceChange" "h24" with
        | none => none
        | some price_change_24h =>
          let risk_score := liquidity / 10000 - volume_24h / 100000 + |price_change_24h| / 10
          some { liquidity := liquidity, volume_24h := volume_24h,
                 price_change_24h := price_change_24h, risk_score := risk_score,
                 risk_percentage := min 100 (max 0 (risk_score * 10)) }
  | _ => none

/-- `is_pump_token` (lines 373-377). -/
def is_pump_token : JValue → Bool
  | .str s => strEndsWith (strLower s) "pump"
  | _ => false

/-- Python `str()` of a float.  Integral values render as `n.0` like Python;
the shortest-repr rendering of non-integral doubles is approximated by
`num/den` (no claim interpolates a non-integral number into a string). -/
def pyNumStr (q : ℚ) : String :=
  if q.den = 1 then toString q.num ++ ".0" else toString q.num ++ "/" ++ toString q.den

mutual

/-- Python `repr()` of a value, used for elements of containers. -/
def pyRepr : JValue → String
  | .null => "None"
  | .bool b => if b then "True" else "False"
  | .num q => pyNumStr q
  | .str s => "\x27" ++ s ++ "\x27"
  | .arr items => "[" ++ pyReprItems items ++ "]"
  | .obj fields => "\x7b" ++ pyReprFields fields ++ "\x7d"

/-- Comma-separated reprs of list items. -/
def pyReprItems : List JValue → String
  | [] => ""
  | [x] => pyRepr x
  | x :: xs => pyRepr x ++ ", " ++ pyReprItems xs

/-- Comma-separated reprs of dict entries. -/
def pyReprFields : List (String × JValue) → String
  | [] => ""
  | [(k, v)] => "\x27" ++ k ++ "\x27: " ++ pyRepr v
  | (k, v) :: xs => "\x27" ++ k ++ "\x27: " ++ pyRepr v ++ ", " ++ pyReprFields xs

end

/-- Python `str()` as used by f-string interpolation. -/
def pyStr : JValue → String
  | .str s => s
  | v => pyRepr v

/-- Nearest integer to `q`, ties to even (IEEE rounding used by Python's
fixed-point formatting). -/
def roundHalfEvenQ (q : ℚ) : ℤ :=
  let f : ℤ := ⌊q⌋
  if q - f < 1/2 then f
  else if 1/2 < q - f then f + 1
  else if f % 2 = 0 then f else f + 1

/-- Left-pad a digit string with zeros to width `d`. -/
def padZeros (s : String) (d : ℕ) : String :=
  String.mk (List.replicate (d - s.length) '0') ++ s

/-- Python `f"{q:.df}"` fixed-point formatting of a float (the rational
models the double exactly; `-0.0` cannot occur for rationals). -/
def formatFixed (q : ℚ) (d : ℕ) : String :=
  let n : ℤ := roundHalfEvenQ (|q| * (10 : ℚ) ^ d)
  let np : ℕ := n.toNat
  let ip : ℕ := np / 10 ^ d
  let fp : ℕ := np % 10 ^ d
  (if q < 0 then "-" else "") ++ toString ip ++
    (if d = 0 then "" else "." ++ padZeros (toString fp) d)

/-- One iteration of the link-formatting loop of `generate_token_info`
(lines 191-198); non-dict entries contribute nothing. -/
def formatLink (link : JValue) : String :=
  match link with
  | .obj lf =>
    let ty := (lookupField lf "type").getD .null
    let url := pyStr ((lookupField lf "url").getD (.str ""))
    if jeq ty (.str "twitter") then "🐦 <a href=\x27" ++ url ++ "\x27>Twitter</a> | "
    else if jeq ty (.str "telegram") then "📢 <a href=\x27" ++ url ++ "\x27>Telegram</a> | "
    else if pyTruthy ((lookupField lf "url").getD .null) then
      "🌐 <a href=\x27" ++ url ++ "\x27>Site</a> | "
    else ""
  | _ => ""

/-- The `links_formatted` accumulation of `generate_token_info`
(lines 189-198): empty unless `links` is a list. -/
def formatLinks (links : JValue) : String :=
  match links with
  | .arr items => String.join (items.map formatLink)
  | _ => ""

/-- `generate_token_info` (lines 180-227).  The second component is the
pair forwarded to the chart renderer (`None` on the three error returns). -/
def generate_token_info : JValue → JValue → String × Option JValue
  | .obj pf, .obj df =>
    let token_address := (lookupField pf "tokenAddress").getD (.str "Desconhecido")
    let links_formatted := formatLinks ((lookupField pf "links").getD (.arr []))
    match get_main_pair (.obj df) with
    | none => ("Dados do par não disponíveis", none)
    | some pair =>
      if ¬ pyTruthy pair then ("Dados do par não disponíveis", none)
      else
        match calculate_investment_risk pair with
        | none => ("Erro ao calcular risco", none)
        | some rd =>
          let gecko_link := "https://www.geckoterminal.com/solana/pools/" ++ pyStr token_address
          let message :=
            "<b>✅ Novo Token Detectado!</b>\n\n" ++
            ("<b>Liquidez:</b> " ++ formatFixed (rd.liquidity / 1000) 1 ++ "K\n" ++
            "<b>Volume 24h:</b> " ++ formatFixed (rd.volume_24h / 1000) 1 ++ "K\n" ++
            "<b>Mudança de Preço 24h:</b> " ++ formatFixed rd.price_change_24h 2 ++ "%\n\n" ++
            "<b>Cálculo de Risco:</b> (" ++ formatFixed rd.liquidity 2 ++ " / 10,000) - " ++
              formatFixed rd.volume_24h 2 ++ " / 100,000) + (|" ++
              formatFixed rd.price_change_24h 2 ++ "| / 10) = " ++
              formatFixed rd.risk_score 2 ++ "\n" ++
            "<b>Porcentagem de Risco:</b> " ++ formatFixed rd.risk_percentage 0 ++ "%\n\n" ++
            "<b>🔗 Links:</b> " ++ links_formatted ++ "\n" ++
            "<b>📊 Gráfico:</b> <a href=\x27" ++ gecko_link ++ "\x27>GeckoTerminal</a>\n" ++
            "<b>🔍 DexScreener:</b> <a href=\x27" ++
              pyStr ((lookupField pf "url").getD (.str "")) ++ "\x27>Abrir</a>\n" ++
            "<b>🆔 Address:</b> <code>" ++ pyStr token_address ++ "</code>")
          (message, some pair)
  | _, _ => ("Informações do token inválidas", none)

/-- The four time-frame keys of `generate_plotly_graph` (line 236). -/
def TIME_FRAMES : List String := ["m5", "h1", "h6", "h24"]

/-- The four x-axis labels of `generate_plotly_graph` (line 237). -/
def CHART_LABELS : List String := ["5 min", "1 hora", "6 horas", "24 horas"]

/-- One iteration of the per-time-frame extraction loop of
`generate_plotly_graph` (lines 242-251).  `.ok (0, 0)` is the inner
`except (TypeError, ValueError)` handler; `.error` is an `AttributeError`
from `.get` on a non-dict container, which that handler does not catch and
which therefore escapes to the function's outer handler.  Python evaluates
the `priceChange` expression first, so a coercion failure there suppresses
the `volume` lookup. -/
def chartWindow (pair : JValue) (tf : String) : Except Unit (ℚ × ℚ) :=
  match pyGet pair "priceChange" (.obj []) with
  | .error e => .error e
  | .ok pcont =>
    match pyGet pcont tf (.num 0) with
    | .error e => .error e
    | .ok pcv =>
      match pyFloat pcv with
      | none => .ok (0, 0)
      | some pc =>
        match pyGet pair "volume" (.obj []) with
        | .error e => .error e
        | .ok vcont =>
          match pyGet vcont tf (.num 0) with
          | .error e => .error e
          | .ok vv =>
            match pyFloat vv with
            | none => .ok (0, 0)
            | some v => .ok (pc, v)

/-- The `price_changes` / `volumes` accumulation over `TIME_FRAMES`
(lines 239-251). -/
def chartSeries (pair : JValue) : List String → Except Unit (List ℚ × List ℚ)
  | [] => .ok ([], [])
  | tf :: rest =>
    match chartWindow pair tf with
    | .error e => .error e
    | .ok pv =>
      match chartSeries pair rest with
      | .error e => .error e
      | .ok ps => .ok (pv.1 :: ps.1, pv.2 :: ps.2)

/-- The drawable content assembled by `generate_plotly_graph`: x-axis
labels, bar heights, line points, per-bar fill colors and the title. -/
structure ChartData where
  labels : List String
  price_changes : List ℚ
  volumes : List ℚ
  bar_colors : List String
  title : String
  deriving DecidableEq

/-- `generate_plotly_graph` (lines 229-340) up to the plotly/PNG encoding,
which is pure I/O on the extracted series and is modelled by the
`renderOk` oracle at the call site.  `none` models both the non-dict early
return and the outer `except Exception` handler. -/
def generate_plotly_graph (pair : JValue) (token_name : String) : Option ChartData :=
  match pair with
  | .obj _ =>
    match chartSeries pair TIME_FRAMES with
    | .error _ => none
    | .ok series =>
      some { labels := CHART_LABELS, price_changes := series.1, volumes := series.2,
             bar_colors := series.1.map (fun pc => if 0 ≤ pc then "#4CAF50" else "#F44336"),
             title := "Performance: " ++ token_name }
  | _ => none

/-- `TELEGRAM_BOT_TOKEN` (line 10). -/
def TELEGRAM_BOT_TOKEN : String := "7315720854:AAFhL9UpORYdUNvApljzx--4jagMiBujo2w"

/-- `TELEGRAM_CHAT_ID` (line 11). -/
def TELEGRAM_CHAT_ID : String := "-1002177087466"

/-- `LIQUIDITY_THRESHOLD` (line 13). -/
def LIQUIDITY_THRESHOLD : ℚ := 5000

/-- The configuration guard of `send_to_telegram` (line 347): true exactly
when the early `return False` is taken, before any network I/O. -/
def send_guard_fails (botToken chatId message : String) : Bool :=
  message == "" || botToken == "" || chatId == ""

/-- `send_to_telegram` (lines 342-371).  First component: the returned
boolean.  Second component: whether a network POST was attempted.
`transport` is the oracle for the POST: `.error` is any raised
`RequestException`/unexpected error (all caught, collapsing to `false`),
`.ok status` is a completed response, which `raise_for_status` turns into
a caught `HTTPError` when the status is 400 or above.  The photo/text mode
choice (`hasImage`) does not affect this contract. -/
def send_to_telegram (botToken chatId message : String) (hasImage : Bool)
    (transport : Except Unit ℕ) : Bool × Bool :=
  if send_guard_fails botToken chatId message then (false, false)
  else
    match transport with
    | .error _ => (false, true)
    | .ok status => (decide (status < 400), true)

/-- The `token_address = token_profile.get("tokenAddress")` extraction
(line 393); `.get` with one argument defaults to `None`. -/
def profile_address : JValue → JValue
  | .obj pf => (lookupField pf "tokenAddress").getD .null
  | _ => .null

/-- Everything observable about one iteration of the
`for token_profile in token_profiles` loop of `process_new_tokens`
(lines 389-417). -/
structure TokenOutcome where
  /-- whether `fetch_token_details` was reached for this profile -/
  fetchCalled : Bool
  /-- the message for which a network send was attempted, if any -/
  sendAttempt : Option String
  /-- the boolean returned by `send_to_telegram` (false when not called) -/
  sendResult : Bool
  /-- the `known_tokens` list after the iteration -/
  known : List JValue
  /-- whether an exception escaped the iteration (and hence the function) -/
  raised : Bool

/-- An iteration outcome that only (possibly) consumed the fetch. -/
def skipOutcome (known : List JValue) (fetchCalled : Bool) : TokenOutcome :=
  { fetchCalled := fetchCalled, sendAttempt := none, sendResult := false,
    known := known, raised := false }

/-- The format-render-send tail of one loop iteration (lines 410-415):
format the alert, render the chart (text-only when the formatter returned
a null pair or rendering failed), send, and append to `known_tokens` only
on a successful send. -/
def send_step (known : List JValue) (token_address token_profile token_data : JValue)
    (renderOk : Bool) (transport : Except Unit ℕ) : TokenOutcome :=
  let mp := generate_token_info token_profile token_data
  let hasImage : Bool :=
    match mp.2 with
    | some p2 => renderOk && (generate_plotly_graph p2 (pyStr token_address)).isSome
    | none => false
  let sent := send_to_telegram TELEGRAM_BOT_TOKEN TELEGRAM_CHAT_ID mp.1 hasImage transport
  { fetchCalled := true,
    sendAttempt := if sent.2 then some mp.1 else none,
    sendResult := sent.1,
    known := if sent.1 then known ++ [token_address] else known,
    raised := false }

/-- One iteration of the per-token loop of `process_new_tokens`
(lines 389-417), with the two network operations supplied as oracles:
`fetched` is the value returned by `fetch_token_details` and `renderOk`
tells whether plotly's `write_image` succeeds on the extracted series. -/
def process_token (known : List JValue) (token_profile : JValue)
    (fetched : Option JValue) (renderOk : Bool) (transport : Except Unit ℕ) : TokenOutcome :=
  match token_profile with
  | .obj _ =>
    let token_address := profile_address token_profile
    if ¬ pyTruthy token_address ∨ known.any (jeq token_address) ∨ is_pump_token token_address then
      skipOutcome known false
    else
      match fetched with
      | none => skipOutcome known true
      | some token_data =>
        if ¬ pyTruthy token_data then skipOutcome known true
        else
          match get_main_pair token_data with
          | none => skipOutcome known true
          | some pair =>
            if ¬ pyTruthy pair then skipOutcome known true
            else
              match extractNum pair "liquidity" "usd" with
              | none =>
                { fetchCalled := true, sendAttempt := none, sendResult := false,
                  known := known, raised := true }
              | some liquidity =>
                if liquidity < LIQUIDITY_THRESHOLD then skipOutcome known true
                else send_step known token_address token_profile token_data renderOk transport
  | _ => skipOutcome known false

/-- The per-pass loop of `process_new_tokens` (lines 388-417) over the
already-fetched-and-filtered profile list, threading `known_tokens`; the
boolean records whether an exception escaped the function (the uncaught
`float` coercion at line 406 is the only way), in which case the loop
stops with the `known_tokens` accumulated so far. -/
def process_new_tokens (profiles : List JValue) (known : List JValue)
    (fetch : JValue → Option JValue) (render : JValue → Bool)
    (transport : JValue → Except Unit ℕ) : List JValue × Bool :=
  match profiles with
  | [] => (known, false)
  | pr :: rest =>
    let o := process_token known pr (fetch pr) (render pr) (transport pr)
    if o.raised then (o.known, true)
    else process_new_tokens rest o.known fetch render transport

/-- A pair record carrying the three numeric fields read by the risk
model, used to state C1. -/
def mkRiskPair (l v c : ℚ) : JValue :=
  .obj [("liquidity", .obj [("usd", .num l)]),
        ("volume", .obj [("h24", .num v)]),
        ("priceChange", .obj [("h24", .num c)])]

/-- Parsed liquidity of a scan candidate with the scan's effective default
(skipped entries count as 0), used to state C2. -/
def parsedLiq0 (p : JValue) : ℚ := (parsedLiq p).getD 0

/-- The pair of values the chart loop records for one window: the window's
result when no exception escapes the inner handler, used to state C9. -/
def windowPair (pair : JValue) (tf : String) : ℚ × ℚ :=
  match chartWindow pair tf with
  | .ok pv => pv
  | .error _ => (0, 0)

/-- The field-wise reading of the spec sentence for C9 (each of
`priceChange[tf]` and `volume[tf]` independently defaulting to 0 on a
missing or unparsable value), stated for comparison with the code's
behaviour.  Modelled from the spec, not from the source. -/
def chartSeriesFieldwise (pair : JValue) : List ℚ × List ℚ :=
  (TIME_FRAMES.map (fun tf =>
      match extractNum pair "priceChange" tf with | some x => x | none => 0),
   TIME_FRAMES.map (fun tf =>
      match extractNum pair "volume" tf with | some x => x | none => 0))

/-! ## Helper lemmas -/

/-- Clamping facts for the risk percentage. -/
theorem risk_percentage_bounds (pair : JValue) (rd : RiskData)
    (h : calculate_investment_risk pair = some rd) :
    0 ≤ rd.risk_percentage ∧ rd.risk_percentage ≤ 100 := by
  cases pair with
  | obj fields =>
    simp only [calculate_investment_risk] at h
    cases h1 : extractNum (.obj fields) "liquidity" "usd" with
    | none => rw [h1] at h; cases h
    | some l =>
      rw [h1] at h
      cases h2 : extractNum (.obj fields) "volume" "h24" with
      | none => rw [h2] at h; cases h
      | some v =>
        rw [h2] at h
        cases h3 : extractNum (.obj fields) "priceChange" "h24" with
        | none => rw [h3] at h; cases h
        | some c =>
          rw [h3] at h
          simp only [Option.some.injEq] at h
          subst h
          constructor
          · exact le_min (by norm_num) (le_max_left 0 _)
          · exact min_le_left 100 _
  | null => cases h
  | bool b => cases h
  | num q => cases h
  | str s => cases h
  | arr items => cases h

/-- Invariant of the selection loop of `get_main_pair`: either no entry
beats the incoming maximum (and the accumulator is returned unchanged), or
the first entry attaining the final maximum is returned. -/
theorem scanPairs_spec (records : List JValue) : ∀ (best : Option JValue) (m : ℚ),
    (scanPairs records best m = (best, m) ∧
      ∀ r ∈ records, ∀ q, parsedLiq r = some q → q ≤ m)
  ∨ (∃ l1 p l2 M, records = l1 ++ p :: l2 ∧ scanPairs records best m = (some p, M) ∧
      parsedLiq p = some M ∧ m < M ∧
      (∀ s ∈ l1, ∀ q, parsedLiq s = some q → q < M) ∧
      (∀ s ∈ records, ∀ q, parsedLiq s = some q → q ≤ M)) := by
  induction records with
  | nil =>
    intro best m
    exact .inl ⟨rfl, by simp⟩
  | cons r rest ih =>
    intro best m
    cases h : parsedLiq r with
    | none =>
      rcases ih best m with ⟨he, hb⟩ | ⟨l1, p, l2, M, hrec, hscan, hp, hm, hl1, hall⟩
      · refine .inl ⟨by simp [scanPairs, h, he], ?_⟩
        intro s hs q hq
        rcases List.mem_cons.mp hs with rfl | hs
        · rw [h] at hq; cases hq
        · exact hb s hs q hq
      · refine .inr ⟨r :: l1, p, l2, M, by simp [hrec], by simp [scanPairs, h, hscan], hp, hm,
          ?_, ?_⟩
        · intro s hs q hq
          rcases List.mem_cons.mp hs with rfl | hs
          · rw [h] at hq; cases hq
          · exact hl1 s hs q hq
        · intro s hs q hq
          rcases List.mem_cons.mp hs with rfl | hs
          · rw [h] at hq; cases hq
          · exact hall s hs q hq
    | some q =>
      by_cases hlt : m < q
      · rcases ih (some r) q with ⟨he, hb⟩ | ⟨l1, p, l2, M, hrec, hscan, hp, hm, hl1, hall⟩
        · refine .inr ⟨[], r, rest, q, by simp, by simp [scanPairs, h, hlt, he], h, hlt,
            by simp, ?_⟩
          intro s hs q' hq'
          rcases List.mem_cons.mp hs with rfl | hs
          · rw [h] at hq'; cases hq'; exact le_refl _
          · exact hb s hs q' hq'
        · refine .inr ⟨r :: l1, p, l2, M, by simp [hrec], by simp [scanPairs, h, hlt, hscan],
            hp, lt_trans hlt hm, ?_, ?_⟩
          · intro s hs q' hq'
            rcases List.mem_cons.mp hs with rfl | hs
            · rw [h] at hq'; cases hq'; exact hm
            · exact hl1 s hs q' hq'
          · intro s hs q' hq'
            rcases List.mem_cons.mp hs with rfl | hs
            · rw [h] at hq'; cases hq'; exact le_of_lt hm
            · exact hall s hs q' hq'
      · rcases ih best m with ⟨he, hb⟩ | ⟨l1, p, l2, M, hrec, hscan, hp, hm, hl1, hall⟩
        · refine .inl ⟨by simp [scanPairs, h, hlt, he], ?_⟩
          intro s hs q' hq'
          rcases List.mem_cons.mp hs with rfl | hs
          · rw [h] at hq'; cases hq'; exact le_of_not_lt hlt
          · exact hb s hs q' hq'
        · refine .inr ⟨r :: l1, p, l2, M, by simp [hrec], by simp [scanPairs, h, hlt, hscan],
            hp, hm, ?_, ?_⟩
          · intro s hs q' hq'
            rcases List.mem_cons.mp hs with rfl | hs
            · rw [h] at hq'; cases hq'; exact lt_of_le_of_lt (le_of_not_lt hlt) hm
            · exact hl1 s hs q' hq'
          · intro s hs q' hq'
            rcases List.mem_cons.mp hs with rfl | hs
            · rw [h] at hq'; cases hq'; exact le_of_lt (lt_of_le_of_lt (le_of_not_lt hlt) hm)
            · exact hall s hs q' hq'

/-- A scan entry with nonzero parsed liquidity is a truthy (non-empty)
dict. -/
theorem parsedLiq_truthy (p : JValue) (M : ℚ) (hp : parsedLiq p = some M) (hM : M ≠ 0) :
    pyTruthy p = true := by
  cases p with
  | obj fields =>
    cases fields with
    | nil =>
      simp [parsedLiq, lookupField, pyFloat] at hp
      exact absurd hp.symm hM
    | cons kv rest => simp [pyTruthy]
  | null => cases hp
  | bool b => cases hp
  | num q => cases hp
  | str s => cases hp
  | arr items => cases hp

/-- Reduction of `get_main_pair` on a token-details record whose `pairs`
field holds a list of records. -/
theorem get_main_pair_records (records : List JValue) :
    get_main_pair (.obj [("pairs", .arr records)]) =
      (if records.isEmpty then none
       else
         let s := scanPairs records none 0
         let main_pair : Option JValue :=
           match s.1 with
           | some p => if pyTruthy p then some p else firstPairFallback records
           | none => firstPairFallback records
         match main_pair with
         | some p => if pyTruthy p then some p else none
         | none => none) := by
  simp [get_main_pair, lookupField]

/-! ## Claim theorems -/

/-- C1: for every pair record the Risk Calculator extracts `liquidity.usd`,
`volume.h24` and `priceChange.h24` (defaulting to 0 when missing) and
returns exactly `riskScore = liquidity/10000 - volume24h/100000 +
|priceChange24h|/10` and `riskPercentage = clamp(riskScore*10, 0, 100)`;
for liquidity 20000, volume 50000, priceChange 10 it returns riskScore 5/2
and riskPercentage 25; and every returned riskPercentage lies in
`[0, 100]`. -/
theorem C1_risk_calculator :
    (∀ l v c : ℚ, calculate_investment_risk (mkRiskPair l v c) =
      some { liquidity := l, volume_24h := v, price_change_24h := c,
             risk_score := l / 10000 - v / 100000 + |c| / 10,
             risk_percentage :=
               min 100 (max 0 ((l / 10000 - v / 100000 + |c| / 10) * 10)) }) ∧
    (calculate_investment_risk (.obj []) =
      some { liquidity := 0, volume_24h := 0, price_change_24h := 0,
             risk_score := 0, risk_percentage := 0 }) ∧
    (calculate_investment_risk (mkRiskPair 20000 50000 10) =
      some { liquidity := 20000, volume_24h := 50000, price_change_24h := 10,
             risk_score := 5 / 2, risk_percentage := 25 }) ∧
    (∀ pair rd, calculate_investment_risk pair = some rd →
      0 ≤ rd.risk_percentage ∧ rd.risk_percentage ≤ 100) := by
  refine ⟨?_, ?_, ?_, risk_percentage_bounds⟩
  · intro l v c
    simp [calculate_investment_risk, mkRiskPair, extractNum, pyGet, lookupField, pyFloat]
  · simp [calculate_investment_risk, extractNum, pyGet, lookupField, pyFloat]
  · simp [calculate_investment_risk, mkRiskPair, extractNum, pyGet, lookupField, pyFloat]
    norm_num

/-- Witness for C1 at the spec's worked example. -/
theorem C1_risk_calculator_witness : 0 ≤ (25 : ℚ) ∧ (25 : ℚ) ≤ 100 :=
  C1_risk_calculator.2.2.2 (mkRiskPair 20000 50000 10)
    { liquidity := 20000, volume_24h := 50000, price_change_24h := 10,
      risk_score := 5 / 2, risk_percentage := 25 }
    C1_risk_calculator.2.2.1

/-- C2 counterexample: two inputs that contain a structurally valid
(mapping) record and no positive liquidity, for which the claim promises
the first structurally valid record, but the code returns no selection:
the empty dict is falsy and rejected by the final `if not main_pair`
check, and the fallback never looks past `pairs[0]`. -/
theorem C2_pair_selector_counterexample :
    get_main_pair (.obj [("pairs", .arr [.obj []])]) = none ∧
    get_main_pair (.obj [("pairs", .arr [.num 5, .obj [("x", .num 1)]])]) = none ∧
    (JValue.obj []).isObj = true ∧ (JValue.obj [("x", .num 1)]).isObj = true :=
  ⟨rfl, rfl, rfl, rfl⟩

/-- C2 amended: the Pair Selector returns the first record attaining the
maximal parsed `liquidity.usd` whenever some record has positive parsed
liquidity (missing/unparsable values count as 0, non-mapping entries are
skipped); when no record has positive parsed liquidity it falls back to
the first record of the collection only if that record is a non-empty
mapping, and otherwise — as well as for empty input — returns no
selection. -/
theorem C2_pair_selector_amended (records : List JValue) :
    ((∃ r ∈ records, 0 < parsedLiq0 r) →
      ∃ l1 p l2, records = l1 ++ p :: l2 ∧
        get_main_pair (.obj [("pairs", .arr records)]) = some p ∧
        0 < parsedLiq0 p ∧
        (∀ s ∈ records, parsedLiq0 s ≤ parsedLiq0 p) ∧
        (∀ s ∈ l1, parsedLiq0 s < parsedLiq0 p)) ∧
    ((∀ r ∈ records, parsedLiq0 r ≤ 0) →
      get_main_pair (.obj [("pairs", .arr records)]) =
        match records with
        | [] => none
        | p :: _ =>
          match p with
          | .obj (_ :: _) => some p
          | _ => none) := by
  constructor
  · rintro ⟨r, hr, hpos⟩
    obtain ⟨q, hq, hqpos⟩ : ∃ q, parsedLiq r = some q ∧ 0 < q := by
      unfold parsedLiq0 at hpos
      cases h : parsedLiq r with
      | none => rw [h] at hpos; simp at hpos
      | some q => rw [h] at hpos; exact ⟨q, rfl, by simpa using hpos⟩
    rcases scanPairs_spec records none 0 with ⟨_, hb⟩ |
      ⟨l1, p, l2, M, hrec, hscan, hp, hM, hl1, hall⟩
    · exact absurd (hb r hr q hq) (not_le.mpr hqpos)
    · have htr : pyTruthy p = true := parsedLiq_truthy p M hp (ne_of_gt hM)
      have hmain : get_main_pair (.obj [("pairs", .arr records)]) = some p := by
        rw [get_main_pair_records]
        have hne : records.isEmpty = false := by
          rw [hrec]; cases l1 <;> simp
        rw [hne]
        simp only [Bool.false_eq_true, if_false, hscan, htr, if_true]
      have hpl : parsedLiq0 p = M := by simp [parsedLiq0, hp]
      refine ⟨l1, p, l2, hrec, hmain, by rw [hpl]; exact hM, ?_, ?_⟩
      · intro s hs
        rw [hpl]
        unfold parsedLiq0
        cases h : parsedLiq s with
        | none => simpa using le_of_lt hM
        | some q' => simpa using hall s hs q' h
      · intro s hs
        rw [hpl]
        unfold parsedLiq0
        cases h : parsedLiq s with
        | none => simpa using hM
        | some q' => simpa using hl1 s hs q' h
  · intro hb
    rcases scanPairs_spec records none 0 with ⟨he, _⟩ |
      ⟨l1, p, l2, M, hrec, hscan, hp, hM, hl1, hall⟩
    · rw [get_main_pair_records]
      cases records with
      | nil => simp
      | cons p rest =>
        simp only [List.isEmpty_cons, Bool.false_eq_true, if_false, he]
        cases p with
        | obj fields =>
          cases fields with
          | nil => simp [firstPairFallback, pyTruthy]
          | cons kv fs => simp [firstPairFallback, pyTruthy]
        | null => simp [firstPairFallback]
        | bool b => simp [firstPairFallback]
        | num q => simp [firstPairFallback]
        | str s => simp [firstPairFallback]
        | arr items => simp [firstPairFallback]
    · have hpmem : p ∈ records := by rw [hrec]; exact List.mem_append_right _ (List.mem_cons_self _ _)
      have : parsedLiq0 p ≤ 0 := hb p hpmem
      rw [parsedLiq0, hp] at this
      simp at this
      exact absurd hM (not_lt.mpr this)

/-- Witness for C2 amended on a one-record collection with positive
liquidity. -/
theorem C2_pair_selector_amended_witness :
    ∃ l1 p l2,
      [JValue.obj [("liquidity", .obj [("usd", .num 7)])]] = l1 ++ p :: l2 ∧
      get_main_pair
        (.obj [("pairs", .arr [.obj [("liquidity", .obj [("usd", .num 7)])]])]) = some p ∧
      0 < parsedLiq0 p ∧
      (∀ s ∈ [JValue.obj [("liquidity", .obj [("usd", .num 7)])]],
        parsedLiq0 s ≤ parsedLiq0 p) ∧
      (∀ s ∈ l1, parsedLiq0 s < parsedLiq0 p) :=
  (C2_pair_selector_amended [.obj [("liquidity", .obj [("usd", .num 7)])]]).1
    ⟨.obj [("liquidity", .obj [("usd", .num 7)])], by simp, by decide⟩

/-- C3 counterexample: a token whose selected pair passes the liquidity
threshold but whose `volume.h24` fails float coercion.  The formatter
returns the sentinel ("Erro ao calcular risco", null pair), yet the loop
does not check it: the sentinel text is sent as a notification (text mode,
since the null pair yields no image), the send succeeds, and the address
is even added to `known_tokens`. -/
theorem C3_formatter_sentinel_counterexample :
    generate_token_info (.obj [("tokenAddress", .str "A")])
      (.obj [("pairs", .arr [.obj [("liquidity", .obj [("usd", .num 6000)]),
                                   ("volume", .obj [("h24", .str "abc")])]])]) =
      ("Erro ao calcular risco", none) ∧
    (process_token [] (.obj [("tokenAddress", .str "A")])
      (some (.obj [("pairs", .arr [.obj [("liquidity", .obj [("usd", .num 6000)]),
                                         ("volume", .obj [("h24", .str "abc")])]])]))
      false (.ok 200)).sendAttempt = some "Erro ao calcular risco" ∧
    (process_token [] (.obj [("tokenAddress", .str "A")])
      (some (.obj [("pairs", .arr [.obj [("liquidity", .obj [("usd", .num 6000)]),
                                         ("volume", .obj [("h24", .str "abc")])]])]))
      false (.ok 200)).sendResult = true ∧
    (process_token [] (.obj [("tokenAddress", .str "A")])
      (some (.obj [("pairs", .arr [.obj [("liquidity", .obj [("usd", .num 6000)]),
                                         ("volume", .obj [("h24", .str "abc")])]])]))
      false (.ok 200)).known = [.str "A"] :=
  ⟨rfl, rfl, rfl, rfl⟩

/-- C3 amended: the Message Formatter does return a fixed error message
together with a null pair when the input records are malformed or when no
main pair / risk assessment can be produced; but the Discovery Loop does
not check for this sentinel — whenever it attempts a send, the message it
sends is exactly whatever the formatter returned, sentinel or not (and the
null pair merely downgrades the notification to text mode). -/
theorem C3_formatter_sentinel_amended :
    (∀ p d : JValue, ¬ (p.isObj = true ∧ d.isObj = true) →
      generate_token_info p d = ("Informações do token inválidas", none)) ∧
    (∀ (pf df : List (String × JValue)), get_main_pair (.obj df) = none →
      generate_token_info (.obj pf) (.obj df) = ("Dados do par não disponíveis", none)) ∧
    (∀ (pf df : List (String × JValue)) (pair : JValue),
      get_main_pair (.obj df) = some pair → pyTruthy pair = true →
      calculate_investment_risk pair = none →
      generate_token_info (.obj pf) (.obj df) = ("Erro ao calcular risco", none)) ∧
    (∀ (known : List JValue) (profile data : JValue) (renderOk : Bool)
      (transport : Except Unit ℕ) (m : String),
      (process_token known profile (some data) renderOk transport).sendAttempt = some m →
      m = (generate_token_info profile data).1) := by
  refine ⟨?_, ?_, ?_, ?_⟩
  · intro p d h
    cases p <;> cases d <;> simp [JValue.isObj] at h <;> rfl
  · intro pf df h
    simp [generate_token_info, h]
  · intro pf df pair h1 h2 h3
    simp [generate_token_info, h1, h2, h3]
  · intro known profile data renderOk transport m h
    cases profile with
    | obj pf =>
      simp only [process_token] at h
      split at h
      · simp [skipOutcome] at h
      · split at h
        · simp [skipOutcome] at h
        · split at h
          · simp [skipOutcome] at h
          · split at h
            · simp [skipOutcome] at h
            · split at h
              · simp at h
              · split at h
                · simp [skipOutcome] at h
                · simp only [send_step] at h
                  split at h
                  · simp only [Option.some.injEq] at h
                    exact h.symm
                  · cases h
    | null => simp [process_token, skipOutcome] at h
    | bool b => simp [process_token, skipOutcome] at h
    | num q => simp [process_token, skipOutcome] at h
    | str s => simp [process_token, skipOutcome] at h
    | arr items => simp [process_token, skipOutcome] at h

/-- Witness for C3 amended: a details record with an empty pair list makes
the formatter return the "pair data unavailable" sentinel. -/
theorem C3_formatter_sentinel_amended_witness :
    generate_token_info (.obj []) (.obj [("pairs", .arr [])]) =
      ("Dados do par não disponíveis", none) :=
  C3_formatter_sentinel_amended.2.1 [] [("pairs", .arr [])] rfl

/-- C4 counterexample: a pair reaching the threshold comparison through
the selector's fallback path with an unparsable `liquidity.usd`.  The
unguarded `float(...)` at line 406 raises, the exception escapes
`process_new_tokens`, and only `main`'s catch-all stops it. -/
theorem C4_threshold_guard_counterexample :
    (process_token [] (.obj [("tokenAddress", .str "B")])
      (some (.obj [("pairs", .arr [.obj [("liquidity", .obj [("usd", .str "abc")])]])]))
      false (.ok 200)).raised = true ∧
    (process_new_tokens [.obj [("tokenAddress", .str "B")]] []
      (fun _ => some (.obj [("pairs", .arr [.obj [("liquidity", .obj [("usd", .str "abc")])]])]))
      (fun _ => false) (fun _ => .ok 200)).2 = true :=
  ⟨rfl, rfl⟩

/-- C4 amended: the fetch, selection, risk, chart and send operations all
catch their own failures, but the liquidity-threshold comparison is
unguarded: an iteration raises exactly when the selected main pair's
`liquidity.usd` fails float coercion there (reachable only through the
selector's fallback), and such an exception escapes `process_new_tokens`
(its caller's catch-all then absorbs it). -/
theorem C4_threshold_guard_amended :
    (∀ (known : List JValue) (profile data : JValue) (renderOk : Bool)
      (transport : Except Unit ℕ),
      (process_token known profile (some data) renderOk transport).raised = true →
      ∃ pair, get_main_pair data = some pair ∧ extractNum pair "liquidity" "usd" = none) ∧
    (∀ (known : List JValue) (profile data : JValue) (renderOk : Bool)
      (transport : Except Unit ℕ) (pair : JValue) (q : ℚ),
      get_main_pair data = some pair → extractNum pair "liquidity" "usd" = some q →
      (process_token known profile (some data) renderOk transport).raised = false) ∧
    (∀ (known : List JValue) (profile : JValue) (renderOk : Bool)
      (transport : Except Unit ℕ),
      (process_token known profile none renderOk transport).raised = false) := by
  have parta : ∀ (known : List JValue) (profile data : JValue) (renderOk : Bool)
      (transport : Except Unit ℕ),
      (process_token known profile (some data) renderOk transport).raised = true →
      ∃ pair, get_main_pair data = some pair ∧ extractNum pair "liquidity" "usd" = none := by
    intro known profile data renderOk transport h
    cases profile with
    | obj pf =>
      simp only [process_token] at h
      split at h
      · simp [skipOutcome] at h
      · split at h
        · simp [skipOutcome] at h
        · split at h
          · simp [skipOutcome] at h
          · next pair hpair =>
            split at h
            · simp [skipOutcome] at h
            · split at h
              · next hext =>
                exact ⟨pair, hpair, hext⟩
              · next liq hext =>
                split at h
                · simp [skipOutcome] at h
                · simp [send_step] at h
    | null => simp [process_token, skipOutcome] at h
    | bool b => simp [process_token, skipOutcome] at h
    | num q => simp [process_token, skipOutcome] at h
    | str s => simp [process_token, skipOutcome] at h
    | arr items => simp [process_token, skipOutcome] at h
  refine ⟨parta, ?_, ?_⟩
  · intro known profile data renderOk transport pair q hg he
    by_contra hne
    obtain ⟨pair', h1, h2⟩ := parta known profile data renderOk transport
      (by simpa using Bool.not_eq_false _ ▸ hne)
    rw [hg] at h1
    injection h1 with h1
    subst h1
    rw [he] at h2
    cases h2
  · intro known profile renderOk transport
    cases profile with
    | obj pf =>
      simp only [process_token]
      split
      · rfl
      · rfl
    | null => rfl
    | bool b => rfl
    | num q => rfl
    | str s => rfl
    | arr items => rfl

/-- Witness for C4 amended: a pair whose liquidity parses does not raise. -/
theorem C4_threshold_guard_amended_witness :
    (process_token [] (.obj [("tokenAddress", .str "B")])
      (some (.obj [("pairs", .arr [.obj [("liquidity", .obj [("usd", .num 1)])]])]))
      false (.ok 200)).raised = false :=
  C4_threshold_guard_amended.2.1 [] (.obj [("tokenAddress", .str "B")])
    (.obj [("pairs", .arr [.obj [("liquidity", .obj [("usd", .num 1)])]])])
    false (.ok 200) (.obj [("liquidity", .obj [("usd", .num 1)])]) 1 rfl rfl

/-- When the notifier reports success, a network send was attempted. -/
theorem send_snd_true_of_fst (bot chat msg : String) (img : Bool) (tr : Except Unit ℕ)
    (h : (send_to_telegram bot chat msg img tr).1 = true) :
    (send_to_telegram bot chat msg img tr).2 = true := by
  simp only [send_to_telegram] at h ⊢
  by_cases hg : send_guard_fails bot chat msg = true
  · rw [if_pos hg] at h; cases h
  · rw [if_neg hg]; cases tr <;> rfl

/-- Shape of the send tail: either nothing was recorded as sent and
`known_tokens` is unchanged, or the send succeeded, a send was attempted,
and exactly the candidate's address was appended. -/
theorem send_step_shape (known : List JValue) (addr prof data : JValue)
    (renderOk : Bool) (transport : Except Unit ℕ) :
    ((send_step known addr prof data renderOk transport).known = known ∧
      (send_step known addr prof data renderOk transport).sendResult = false) ∨
    ((send_step known addr prof data renderOk transport).known = known ++ [addr] ∧
      (send_step known addr prof data renderOk transport).sendResult = true ∧
      (send_step known addr prof data renderOk transport).sendAttempt ≠ none) := by
  simp only [send_step]
  cases hs : (send_to_telegram TELEGRAM_BOT_TOKEN TELEGRAM_CHAT_ID
      (generate_token_info prof data).1
      (match (generate_token_info prof data).2 with
       | some p2 => renderOk && (generate_plotly_graph p2
           (pyStr addr)).isSome
       | none => false) transport).1 with
  | false => exact .inl ⟨by simp [hs], by simp [hs]⟩
  | true =>
    refine .inr ⟨by simp [hs], by simp [hs], ?_⟩
    have h2 := send_snd_true_of_fst _ _ _ _ _ hs
    simp [h2]

/-- Shape of one loop iteration: `known_tokens` is either unchanged (with
no successful send) or extended by exactly the candidate's address (after
a successful, attempted send). -/
theorem process_token_known_shape (known : List JValue) (profile : JValue)
    (fetched : Option JValue) (renderOk : Bool) (transport : Except Unit ℕ) :
    ((process_token known profile fetched renderOk transport).known = known ∧
      (process_token known profile fetched renderOk transport).sendResult = false) ∨
    ((process_token known profile fetched renderOk transport).known =
        known ++ [profile_address profile] ∧
      (process_token known profile fetched renderOk transport).sendResult = true ∧
      (process_token known profile fetched renderOk transport).sendAttempt ≠ none) := by
  cases profile with
  | obj pf =>
    simp only [process_token]
    split
    · exact .inl ⟨rfl, rfl⟩
    · split
      · exact .inl ⟨rfl, rfl⟩
      · split
        · exact .inl ⟨rfl, rfl⟩
        · split
          · exact .inl ⟨rfl, rfl⟩
          · split
            · exact .inl ⟨rfl, rfl⟩
            · split
              · exact .inl ⟨rfl, rfl⟩
              · split
                · exact .inl ⟨rfl, rfl⟩
                · exact send_step_shape known (profile_address (.obj pf)) (.obj pf) _
                    renderOk transport
  | null => exact .inl ⟨rfl, rfl⟩
  | bool b => exact .inl ⟨rfl, rfl⟩
  | num q => exact .inl ⟨rfl, rfl⟩
  | str s => exact .inl ⟨rfl, rfl⟩
  | arr items => exact .inl ⟨rfl, rfl⟩

/-- If the address-missing / already-known / pump guard fires, the
iteration does nothing: no fetch, no send, no change. -/
theorem process_token_guard_skip (known : List JValue) (pf : List (String × JValue))
    (fetched : Option JValue) (renderOk : Bool) (transport : Except Unit ℕ)
    (h : ¬ pyTruthy (profile_address (.obj pf)) = true ∨
         known.any (jeq (profile_address (.obj pf))) = true ∨
         is_pump_token (profile_address (.obj pf)) = true) :
    process_token known (.obj pf) fetched renderOk transport = skipOutcome known false := by
  simp only [process_token]
  rw [if_pos h]

/-- C5: per loop iteration, `known_tokens` only ever grows, and only by the
candidate's own address appended immediately after a successful send; an
address already in `known_tokens` is skipped before any fetch or send; and
a failed (or absent) send leaves `known_tokens` unchanged, so the address
is retried when seen again. -/
theorem C5_known_tokens_dedup :
    ∀ (known : List JValue) (profile : JValue) (fetched : Option JValue)
      (renderOk : Bool) (transport : Except Unit ℕ),
      ((process_token known profile fetched renderOk transport).known = known ∨
        (process_token known profile fetched renderOk transport).known =
          known ++ [profile_address profile]) ∧
      ((process_token known profile fetched renderOk transport).known ≠ known →
        (process_token known profile fetched renderOk transport).sendResult = true ∧
        (process_token known profile fetched renderOk transport).sendAttempt ≠ none) ∧
      (known.any (jeq (profile_address profile)) = true →
        (process_token known profile fetched renderOk transport).fetchCalled = false ∧
        (process_token known profile fetched renderOk transport).sendAttempt = none ∧
        (process_token known profile fetched renderOk transport).known = known) ∧
      ((process_token known profile fetched renderOk transport).sendResult = false →
        (process_token known profile fetched renderOk transport).known = known) := by
  intro known profile fetched renderOk transport
  rcases process_token_known_shape known profile fetched renderOk transport with
    ⟨h1, h2⟩ | ⟨h1, h2, h3⟩
  · refine ⟨.inl h1, fun hne => absurd h1 hne, ?_, fun _ => h1⟩
    intro hmem
    cases profile with
    | obj pf =>
      rw [process_token_guard_skip known pf fetched renderOk transport (.inr (.inl hmem))]
      exact ⟨rfl, rfl, rfl⟩
    | null => exact ⟨rfl, rfl, rfl⟩
    | bool b => exact ⟨rfl, rfl, rfl⟩
    | num q => exact ⟨rfl, rfl, rfl⟩
    | str s => exact ⟨rfl, rfl, rfl⟩
    | arr items => exact ⟨rfl, rfl, rfl⟩
  · refine ⟨.inr h1, fun _ => ⟨h2, h3⟩, ?_, ?_⟩
    · intro hmem
      cases profile with
      | obj pf =>
        rw [process_token_guard_skip known pf fetched renderOk transport (.inr (.inl hmem))]
          at h1
        simp [skipOutcome] at h1
      | null => simp [process_token, skipOutcome] at h1
      | bool b => simp [process_token, skipOutcome] at h1
      | num q => simp [process_token, skipOutcome] at h1
      | str s => simp [process_token, skipOutcome] at h1
      | arr items => simp [process_token, skipOutcome] at h1
    · intro hfalse
      rw [h2] at hfalse
      cases hfalse

/-- Witness for C5 on an address already present in `known_tokens`. -/
theorem C5_known_tokens_dedup_witness :
    (process_token [.str "A"] (.obj [("tokenAddress", .str "A")]) (some (.obj []))
      true (.ok 200)).fetchCalled = false ∧
    (process_token [.str "A"] (.obj [("tokenAddress", .str "A")]) (some (.obj []))
      true (.ok 200)).sendAttempt = none ∧
    (process_token [.str "A"] (.obj [("tokenAddress", .str "A")]) (some (.obj []))
      true (.ok 200)).known = [.str "A"] :=
  (C5_known_tokens_dedup [.str "A"] (.obj [("tokenAddress", .str "A")]) (some (.obj []))
    true (.ok 200)).2.2.1 (by simp [profile_address, lookupField, jeq])

/-- C6: a token whose address ends with "pump" in any letter case is
skipped before the details fetch: nothing is sent for it and
`known_tokens` is unchanged, regardless of liquidity. -/
theorem C6_pump_exclusion :
    ∀ (known : List JValue) (profile : JValue) (fetched : Option JValue)
      (renderOk : Bool) (transport : Except Unit ℕ) (s : String),
      profile_address profile = .str s → strEndsWith (strLower s) "pump" = true →
      (process_token known profile fetched renderOk transport).fetchCalled = false ∧
      (process_token known profile fetched renderOk transport).sendAttempt = none ∧
      (process_token known profile fetched renderOk transport).known = known := by
  intro known profile fetched renderOk transport s hs hp
  cases profile with
  | obj pf =>
    have hpump : is_pump_token (profile_address (.obj pf)) = true := by
      rw [hs]
      simpa [is_pump_token] using hp
    rw [process_token_guard_skip known pf fetched renderOk transport (.inr (.inr hpump))]
    exact ⟨rfl, rfl, rfl⟩
  | null => exact ⟨rfl, rfl, rfl⟩
  | bool b => exact ⟨rfl, rfl, rfl⟩
  | num q => exact ⟨rfl, rfl, rfl⟩
  | str s => exact ⟨rfl, rfl, rfl⟩
  | arr items => exact ⟨rfl, rfl, rfl⟩

/-- Witness for C6 on a mixed-case pump address with high liquidity. -/
theorem C6_pump_exclusion_witness :
    (process_token [] (.obj [("tokenAddress", .str "XyzPUMP")])
      (some (.obj [("pairs", .arr [.obj [("liquidity", .obj [("usd", .num 999999)])]])]))
      true (.ok 200)).fetchCalled = false ∧
    (process_token [] (.obj [("tokenAddress", .str "XyzPUMP")])
      (some (.obj [("pairs", .arr [.obj [("liquidity", .obj [("usd", .num 999999)])]])]))
      true (.ok 200)).sendAttempt = none ∧
    (process_token [] (.obj [("tokenAddress", .str "XyzPUMP")])
      (some (.obj [("pairs", .arr [.obj [("liquidity", .obj [("usd", .num 999999)])]])]))
      true (.ok 200)).known = [] :=
  C6_pump_exclusion [] (.obj [("tokenAddress", .str "XyzPUMP")])
    (some (.obj [("pairs", .arr [.obj [("liquidity", .obj [("usd", .num 999999)])]])]))
    true (.ok 200) "XyzPUMP" rfl rfl

/-- C7: when the selected main pair's parsed `liquidity.usd` is strictly
below the 5000 threshold, the iteration attempts no network send and
leaves `known_tokens` unchanged. -/
theorem C7_liquidity_threshold :
    ∀ (known : List JValue) (profile data : JValue) (renderOk : Bool)
      (transport : Except Unit ℕ) (pair : JValue) (q : ℚ),
      get_main_pair data = some pair → extractNum pair "liquidity" "usd" = some q →
      q < LIQUIDITY_THRESHOLD →
      (process_token known profile (some data) renderOk transport).sendAttempt = none ∧
      (process_token known profile (some data) renderOk transport).known = known := by
  intro known profile data renderOk transport pair q hg he hq
  cases profile with
  | obj pf =>
    simp only [process_token]
    split
    · exact ⟨rfl, rfl⟩
    · split
      · exact ⟨rfl, rfl⟩
      · split
        · exact ⟨rfl, rfl⟩
        · next pair' hpair' =>
          split
          · exact ⟨rfl, rfl⟩
          · split
            · exact ⟨rfl, rfl⟩
            · next liq hext =>
              split
              · exact ⟨rfl, rfl⟩
              · next hth =>
                rw [hg] at hpair'
                injection hpair' with hpp
                subst hpp
                rw [he] at hext
                injection hext with hqq
                subst hqq
                exact absurd hq hth
  | null => exact ⟨rfl, rfl⟩
  | bool b => exact ⟨rfl, rfl⟩
  | num q => exact ⟨rfl, rfl⟩
  | str s => exact ⟨rfl, rfl⟩
  | arr items => exact ⟨rfl, rfl⟩

/-- Witness for C7 on a pair with liquidity 4000, below the threshold. -/
theorem C7_liquidity_threshold_witness :
    (process_token [] (.obj [("tokenAddress", .str "C")])
      (some (.obj [("pairs", .arr [.obj [("liquidity", .obj [("usd", .num 4000)])]])]))
      true (.ok 200)).sendAttempt = none ∧
    (process_token [] (.obj [("tokenAddress", .str "C")])
      (some (.obj [("pairs", .arr [.obj [("liquidity", .obj [("usd", .num 4000)])]])]))
      true (.ok 200)).known = [] :=
  C7_liquidity_threshold [] (.obj [("tokenAddress", .str "C")])
    (.obj [("pairs", .arr [.obj [("liquidity", .obj [("usd", .num 4000)])]])])
    true (.ok 200) (.obj [("liquidity", .obj [("usd", .num 4000)])]) 4000
    rfl rfl (by decide)

/-- C8: the Notifier returns a boolean and never raises (every transport
or HTTP-status failure collapses to `false`), and with an empty message or
an empty credential it returns `false` without attempting network I/O. -/
theorem C8_notifier_contract :
    ∀ (botToken chatId message : String) (hasImage : Bool) (transport : Except Unit ℕ),
      ((message = "" ∨ botToken = "" ∨ chatId = "") →
        send_to_telegram botToken chatId message hasImage transport = (false, false)) ∧
      ((send_to_telegram botToken chatId message hasImage transport).2 = true →
        message ≠ "" ∧ botToken ≠ "" ∧ chatId ≠ "") ∧
      (transport = .error () →
        (send_to_telegram botToken chatId message hasImage transport).1 = false) ∧
      (∀ status, transport = .ok status → 400 ≤ status →
        (send_to_telegram botToken chatId message hasImage transport).1 = false) ∧
      ((send_to_telegram botToken chatId message hasImage transport).1 = true →
        ∃ status, transport = .ok status ∧ status < 400) := by
  intro bot chat msg img tr
  refine ⟨?_, ?_, ?_, ?_, ?_⟩
  · intro h
    have hg : send_guard_fails bot chat msg = true := by
      rcases h with h | h | h <;> simp [send_guard_fails, h]
    simp [send_to_telegram, hg]
  · intro h
    by_cases hg : send_guard_fails bot chat msg = true
    · simp [send_to_telegram, hg] at h
    · have := by simpa [send_guard_fails, not_or] using hg
      exact ⟨this.1.1, this.1.2, this.2⟩
  · rintro rfl
    simp only [send_to_telegram]
    split
    · rfl
    · rfl
  · rintro status rfl h400
    simp only [send_to_telegram]
    split
    · rfl
    · simpa using Nat.not_lt.mpr h400
  · intro h
    simp only [send_to_telegram] at h
    by_cases hg : send_guard_fails bot chat msg = true
    · rw [if_pos hg] at h; cases h
    · rw [if_neg hg] at h
      cases tr with
      | error e => cases h
      | ok status => exact ⟨status, rfl, by simpa using h⟩

/-- Witness for C8 on an empty message and on a 404 response. -/
theorem C8_notifier_contract_witness :
    send_to_telegram TELEGRAM_BOT_TOKEN TELEGRAM_CHAT_ID "" true (.ok 200) = (false, false) ∧
    (send_to_telegram TELEGRAM_BOT_TOKEN TELEGRAM_CHAT_ID "hi" false (.ok 404)).1 = false :=
  ⟨(C8_notifier_contract TELEGRAM_BOT_TOKEN TELEGRAM_CHAT_ID "" true (.ok 200)).1 (.inl rfl),
   (C8_notifier_contract TELEGRAM_BOT_TOKEN TELEGRAM_CHAT_ID "hi" false
      (.ok 404)).2.2.2.1 404 rfl (by decide)⟩

/-- A successful series extraction records, window by window in order, the
pair produced by that window's iteration. -/
theorem chartSeries_ok (pair : JValue) (tfs : List String) :
    ∀ (ps vs : List ℚ), chartSeries pair tfs = .ok (ps, vs) →
      ps = tfs.map (fun tf => (windowPair pair tf).1) ∧
      vs = tfs.map (fun tf => (windowPair pair tf).2) := by
  induction tfs with
  | nil =>
    intro ps vs h
    simp only [chartSeries] at h
    injection h with h
    injection h with hp hv
    subst hp
    subst hv
    simp
  | cons tf rest ih =>
    intro ps vs h
    simp only [chartSeries] at h
    cases hw : chartWindow pair tf with
    | error e => rw [hw] at h; cases h
    | ok pv =>
      rw [hw] at h
      cases hr : chartSeries pair rest with
      | error e => rw [hr] at h; cases h
      | ok ps' =>
        rw [hr] at h
        injection h with h
        injection h with hp hv
        subst hp
        subst hv
        obtain ⟨h1, h2⟩ := ih ps'.1 ps'.2 (by rw [hr])
        have hwp : windowPair pair tf = pv := by simp [windowPair, hw]
        constructor
        · simp only [List.map_cons, hwp]
          rw [h1]
        · simp only [List.map_cons, hwp]
          rw [h2]

/-- C9 counterexample: the chart loop's defaulting is not field-wise.
With `priceChange.m5 = 5` and an unparsable `volume.m5`, the claim's
field-wise reading yields price changes `[5, 0, 0, 0]`, but the code
discards the already-parsed price change and records `[0, 0, 0, 0]`; and a
pair whose `priceChange` field is present but not a mapping raises an
`AttributeError` past the inner handler, so no chart (hence no 4 bars) is
produced at all. -/
theorem C9_chart_windows_counterexample :
    (generate_plotly_graph (.obj [("priceChange", .obj [("m5", .num 5)]),
                                  ("volume", .obj [("m5", .str "x")])]) "T").map
        ChartData.price_changes = some [0, 0, 0, 0] ∧
    (chartSeriesFieldwise (.obj [("priceChange", .obj [("m5", .num 5)]),
                                 ("volume", .obj [("m5", .str "x")])])).1 = [5, 0, 0, 0] ∧
    generate_plotly_graph (.obj [("priceChange", .num 5)]) "T" = none :=
  ⟨rfl, rfl, rfl⟩

/-- C9 amended: whenever the renderer produces a chart, it has exactly 4
bars and 4 line points in the fixed window order `[m5, h1, h6, h24]`, and
each window contributes the parsed `(priceChange, volume)` pair when both
coerce, and `(0, 0)` when either fails to coerce; a present but
non-mapping `priceChange`/`volume` container instead aborts rendering
("no image"). -/
theorem C9_chart_windows_amended :
    ∀ (pair : JValue) (token_name : String) (d : ChartData),
      generate_plotly_graph pair token_name = some d →
      d.labels = CHART_LABELS ∧
      d.price_changes = TIME_FRAMES.map (fun tf => (windowPair pair tf).1) ∧
      d.volumes = TIME_FRAMES.map (fun tf => (windowPair pair tf).2) ∧
      d.price_changes.length = 4 ∧
      d.volumes.length = 4 := by
  intro pair token_name d h
  cases pair with
  | obj fields =>
    simp only [generate_plotly_graph] at h
    cases hs : chartSeries (.obj fields) TIME_FRAMES with
    | error e => rw [hs] at h; cases h
    | ok series =>
      rw [hs] at h
      injection h with h
      obtain ⟨h1, h2⟩ := chartSeries_ok (.obj fields) TIME_FRAMES series.1 series.2 (by rw [hs])
      rw [← h]
      refine ⟨rfl, h1, h2, ?_, ?_⟩
      · rw [h1]; rfl
      · rw [h2]; rfl
  | null => cases h
  | bool b => cases h
  | num q => cases h
  | str s => cases h
  | arr items => cases h

/-- Witness for C9 amended on the empty pair record. -/
theorem C9_chart_windows_amended_witness :
    ({ labels := CHART_LABELS, price_changes := [0, 0, 0, 0], volumes := [0, 0, 0, 0],
       bar_colors := ["#4CAF50", "#4CAF50", "#4CAF50", "#4CAF50"],
       title := "Performance: N" } : ChartData).labels = CHART_LABELS ∧
    ({ labels := CHART_LABELS, price_changes := [0, 0, 0, 0], volumes := [0, 0, 0, 0],
       bar_colors := ["#4CAF50", "#4CAF50", "#4CAF50", "#4CAF50"],
       title := "Performance: N" } : ChartData).price_changes =
      TIME_FRAMES.map (fun tf => (windowPair (.obj []) tf).1) ∧
    ({ labels := CHART_LABELS, price_changes := [0, 0, 0, 0], volumes := [0, 0, 0, 0],
       bar_colors := ["#4CAF50", "#4CAF50", "#4CAF50", "#4CAF50"],
       title := "Performance: N" } : ChartData).volumes =
      TIME_FRAMES.map (fun tf => (windowPair (.obj []) tf).2) ∧
    ({ labels := CHART_LABELS, price_changes := [0, 0, 0, 0], volumes := [0, 0, 0, 0],
       bar_colors := ["#4CAF50", "#4CAF50", "#4CAF50", "#4CAF50"],
       title := "Performance: N" } : ChartData).price_changes.length = 4 ∧
    ({ labels := CHART_LABELS, price_changes := [0, 0, 0, 0], volumes := [0, 0, 0, 0],
       bar_colors := ["#4CAF50", "#4CAF50", "#4CAF50", "#4CAF50"],
       title := "Performance: N" } : ChartData).volumes.length = 4 :=
  C9_chart_windows_amended (.obj []) "N"
    { labels := CHART_LABELS, price_changes := [0, 0, 0, 0], volumes := [0, 0, 0, 0],
      bar_colors := ["#4CAF50", "#4CAF50", "#4CAF50", "#4CAF50"],
      title := "Performance: N" } rfl

/-- Every formatter result is one of the three fixed error sentinels (with
a null pair) or a message starting with the fixed success banner (with the
selected pair). -/
theorem generate_token_info_cases (p d : JValue) :
    generate_token_info p d = ("Informações do token inválidas", none) ∨
    generate_token_info p d = ("Dados do par não disponíveis", none) ∨
    generate_token_info p d = ("Erro ao calcular risco", none) ∨
    ∃ t pr, generate_token_info p d = ("<b>✅ Novo Token Detectado!</b>\n\n" ++ t, some pr) := by
  cases p with
  | obj pf =>
    cases d with
    | obj df =>
      simp only [generate_token_info]
      cases hg : get_main_pair (.obj df) with
      | none => exact .inr (.inl rfl)
      | some pair =>
        simp only
        by_cases ht : pyTruthy pair = true
        · rw [if_neg (not_not_intro ht)]
          cases hr : calculate_investment_risk pair with
          | none => simp [hr]
          | some rd =>
            simp only [hr]
            exact .inr (.inr (.inr ⟨_, pair, rfl⟩))
        · rw [if_pos ht]
          exact .inr (.inl rfl)
    | null => exact .inl rfl
    | bool b => exact .inl rfl
    | num q => exact .inl rfl
    | str s => exact .inl rfl
    | arr items => exact .inl rfl
  | null => exact .inl rfl
  | bool b => exact .inl rfl
  | num q => exact .inl rfl
  | str s => exact .inl rfl
  | arr items => exact .inl rfl

/-- A string starting with the success banner is non-empty. -/
theorem banner_append_ne_empty (t : String) :
    "<b>✅ Novo Token Detectado!</b>\n\n" ++ t ≠ "" := by
  intro he
  have hl := congrArg String.length he
  rw [String.length_append] at hl
  simp at hl
  exact absurd hl.1 (by decide)

/-- C10: the Message Formatter's result is never the empty string — its
failure cases are three fixed non-empty error strings — so, since both
Telegram credentials are non-empty constants, the Notifier's
empty-message/empty-credential guard can never fire on a
formatter-produced message. -/
theorem C10_formatter_message_nonempty :
    ∀ p d : JValue,
      (generate_token_info p d).1 ≠ "" ∧
      ((generate_token_info p d).2 = none →
        (generate_token_info p d).1 = "Informações do token inválidas" ∨
        (generate_token_info p d).1 = "Dados do par não disponíveis" ∨
        (generate_token_info p d).1 = "Erro ao calcular risco") ∧
      send_guard_fails TELEGRAM_BOT_TOKEN TELEGRAM_CHAT_ID (generate_token_info p d).1 =
        false := by
  intro p d
  have hne : (generate_token_info p d).1 ≠ "" := by
    rcases generate_token_info_cases p d with h | h | h | ⟨t, pr, h⟩ <;> rw [h]
    · decide
    · decide
    · decide
    · exact banner_append_ne_empty t
  refine ⟨hne, ?_, ?_⟩
  · intro h2
    rcases generate_token_info_cases p d with h | h | h | ⟨t, pr, h⟩
    · exact .inl (by rw [h])
    · exact .inr (.inl (by rw [h]))
    · exact .inr (.inr (by rw [h]))
    · rw [h] at h2; cases h2
  · simp only [send_guard_fails]
    have h1 : ((generate_token_info p d).1 == "") = false := by
      simpa using hne
    have h2 : (TELEGRAM_BOT_TOKEN == "") = false := by decide
    have h3 : (TELEGRAM_CHAT_ID == "") = false := by decide
    rw [h1, h2, h3]
    rfl

/-- Witness for C10's failure-case clause at a malformed profile. -/
theorem C10_formatter_message_nonempty_witness :
    (generate_token_info .null .null).1 = "Informações do token inválidas" ∨
    (generate_token_info .null .null).1 = "Dados do par não disponíveis" ∨
    (generate_token_info .null .null).1 = "Erro ao calcular risco" :=
  (C10_formatter_message_nonempty .null .null).2.1 rfl
